import Mathlib

/-!
Shallow embedding of the `cdk-loadbalanced-ecs-service` construct
(`src/index.ts`, current variant): the context resolver
(`getLoadBalancerContext`, `getLoadBalancedServiceContext`) and the
`LoadBalancedService` constructor, modelled as a function from resolved
options to the ordered list of resource declarations it emits.
-/

/-- Errors surfaced by context resolution.  `noHttpsListener` is the
`could not find https listener` throw; `noAvailablePriority` is the failure
of the external `findPriorityOrFail` allocator; the two NotFound variants
are the throws of the attribute-bundle variant of the resolver. -/
inductive ResolutionError where
  | noHttpsListener
  | noAvailablePriority
  | listenerNotFound
  | loadBalancerNotFound
deriving DecidableEq, Repr

/-- One entry of the `describeListeners` response, with the fields the
resolver reads. -/
structure Listener where
  ListenerArn : String
  LoadBalancerArn : String
  Protocol : String
deriving DecidableEq, Repr

/-- One entry of the `describeLoadBalancers` response, with the fields the
attribute-bundle resolver reads. -/
structure LoadBalancerDesc where
  LoadBalancerArn : String
  DNSName : String
  CanonicalHostedZoneId : String
  SecurityGroups : List String
deriving DecidableEq, Repr

/-- The resolved load-balancer sub-record (`EcsLoadBalancerContext` of the
current variant). -/
structure EcsLoadBalancerContext where
  loadBalancerArn : String
  listenerArn : String
  rulePriority : Nat
deriving DecidableEq, Repr

/-- The resolved `LoadBalancedServiceContext` of the current variant. -/
structure LoadBalancedServiceContext where
  domainName : String
  vpcId : String
  clusterName : String
  containerSecurityGroupIds : List String
  route53ZoneName : Option String
  loadBalancer : EcsLoadBalancerContext
deriving DecidableEq, Repr

/-- The `extras` bundle handed to the caller-supplied `serviceFactory`
(security-group ids, vpc id, target-group id, hosted-zone name stand for
the corresponding construct references). -/
structure ServiceExtras where
  securityGroups : List String
  vpcId : String
  targetGroup : Nat
  hostedZone : String
deriving DecidableEq, Repr

/-- The caller-supplied factory callbacks.  Construct references produced
by the factories are modelled as opaque numeric ids. -/
structure LoadBalancedServiceFactories where
  targetGroupFactory : String → Nat
  serviceFactory : String → ServiceExtras → Nat

/-- `LoadBalancedServiceOptions = LoadBalancedServiceContext &
LoadBalancedServiceFactories`. -/
structure LoadBalancedServiceOptions extends
    LoadBalancedServiceContext, LoadBalancedServiceFactories

/-- The read-only environment of the current resolver variant: the
`describeListeners(LoadBalancerArn)` call (whose `Listeners` field is
optional in the SDK response) and the external `findPriorityOrFail`
allocator. -/
structure ResolverEnv where
  describeListeners : String → Option (List Listener)
  findPriority : String → String → Except ResolutionError Nat

/-- Embedding of `getLoadBalancerContext(loadBalancerArn, hostname)` of the
current variant: describe the listeners of the load balancer, select the
first one whose `Protocol` is exactly `"HTTPS"`, fail with
`noHttpsListener` when there is none, then ask the external allocator for
a rule priority and assemble the sub-record. -/
def getLoadBalancerContext (env : ResolverEnv) (loadBalancerArn hostname : String) :
    Except ResolutionError EcsLoadBalancerContext :=
  match (env.describeListeners loadBalancerArn).bind
      (List.find? fun l => l.Protocol == "HTTPS") with
  | none => .error .noHttpsListener
  | some listener =>
    match env.findPriority listener.ListenerArn hostname with
    | .error e => .error e
    | .ok p =>
      .ok { loadBalancerArn := loadBalancerArn
            listenerArn := listener.ListenerArn
            rulePriority := p }

/-- The input of `getLoadBalancedServiceContext`:
`{ loadBalancerArn } & Omit<LoadBalancedServiceContext, "loadBalancer">`. -/
structure ContextRequest where
  domainName : String
  vpcId : String
  clusterName : String
  containerSecurityGroupIds : List String
  route53ZoneName : Option String
  loadBalancerArn : String
deriving DecidableEq, Repr

/-- Embedding of `getLoadBalancedServiceContext(options)`: spread the
caller-supplied fields unchanged and fill in the `loadBalancer` sub-record
from `getLoadBalancerContext(options.loadBalancerArn, options.domainName)`. -/
def getLoadBalancedServiceContext (env : ResolverEnv) (options : ContextRequest) :
    Except ResolutionError LoadBalancedServiceContext :=
  match getLoadBalancerContext env options.loadBalancerArn options.domainName with
  | .error e => .error e
  | .ok lb =>
    .ok { domainName := options.domainName
          vpcId := options.vpcId
          clusterName := options.clusterName
          containerSecurityGroupIds := options.containerSecurityGroupIds
          route53ZoneName := options.route53ZoneName
          loadBalancer := lb }

/-- A routing-rule condition (`elbv2.ListenerCondition.hostHeaders`). -/
inductive ListenerCondition where
  | hostHeaders (hosts : List String)
deriving DecidableEq, Repr

/-- A routing-rule action (`elbv2.ListenerAction.forward`), carrying the
ids of the target groups forwarded to. -/
inductive ListenerAction where
  | forward (targetGroups : List Nat)
deriving DecidableEq, Repr

/-- One resource declaration emitted by the `LoadBalancedService`
constructor, in the order the constructor executes. -/
inductive Decl where
  | securityGroupRef (idx : Nat) (securityGroupId : String)
  | hostedZoneRef (zoneName : String)
  | loadBalancerRef (loadBalancerArn : String)
  | listenerRef (listenerArn : String)
  | vpcRef (vpcId : String)
  | clusterRef (vpcId : String) (clusterName : String) (securityGroupIds : List String)
  | targetGroup (id : Nat)
  | certificate (domainName : String) (zoneName : String)
  | listenerRule (listenerArn : String) (priority : Nat)
      (conditions : List ListenerCondition) (action : ListenerAction)
  | listenerCertificate (listenerArn : String) (domainName : String)
  | aRecord (recordName : String) (zoneName : String) (loadBalancerArn : String)
  | service (clusterName : String) (extras : ServiceExtras) (id : Nat)
  | addTarget (targetGroupId : Nat) (serviceId : Nat)
deriving DecidableEq, Repr

/-- Splitting a character list at every occurrence of a separator
character (the semantics of the JavaScript `split` call with a
one-character separator, on the underlying characters): the empty input
yields one empty field, and every separator closes the current field. -/
def splitSepChars (sep : Char) : List Char → List (List Char)
  | [] => [[]]
  | c :: cs =>
    if c = sep then [] :: splitSepChars sep cs
    else
      match splitSepChars sep cs with
      | [] => [[c]]
      | h :: t => (c :: h) :: t

/-- Embedding of `domainName.split(".")`. -/
def splitDot (s : String) : List String :=
  (splitSepChars '.' s.data).map fun cs => String.mk cs

/-- Splitting a string at every slash, the JavaScript `split("/")`. -/
def splitSlash (s : String) : List String :=
  (splitSepChars '/' s.data).map fun cs => String.mk cs

/-- The labels of `domainName.split(".").slice(-2)`: JavaScript `slice(-2)`
keeps the last two elements (or the whole array when it is shorter). -/
def lastTwo (l : List String) : List String :=
  l.drop (l.length - 2)

/-- The zone name used for the hosted-zone lookup:
`route53ZoneName ?? domainName.split(".").slice(-2).join(".")`. -/
def zoneNameOf (opts : LoadBalancedServiceOptions) : String :=
  opts.route53ZoneName.getD
    (String.intercalate "." (lastTwo (splitDot opts.domainName)))

/-- The target-group reference produced by `targetGroupFactory(vpc)`. -/
def tgIdOf (opts : LoadBalancedServiceOptions) : Nat :=
  opts.targetGroupFactory opts.vpcId

/-- The `extras` bundle passed to `serviceFactory`. -/
def extrasOf (opts : LoadBalancedServiceOptions) : ServiceExtras :=
  { securityGroups := opts.containerSecurityGroupIds
    vpcId := opts.vpcId
    targetGroup := tgIdOf opts
    hostedZone := zoneNameOf opts }

/-- The service reference produced by `serviceFactory(cluster, extras)`. -/
def svcIdOf (opts : LoadBalancedServiceOptions) : Nat :=
  opts.serviceFactory opts.clusterName (extrasOf opts)

/-- The security-group reference declarations:
`ecsSecurityGroupIds.map((securityGroupId, i) => SecurityGroup.fromLookup(...))`. -/
def sgRefDecls (opts : LoadBalancedServiceOptions) : List Decl :=
  opts.containerSecurityGroupIds.enum.map fun q => Decl.securityGroupRef q.1 q.2

/-- The declarations following the security-group references, in the exact
order the constructor body executes: hosted zone, load balancer, listener,
vpc, cluster, target group, certificate, listener rule,
listener-certificate binding, alias record, service, and the final
`targetGroup.addTarget(service)` registration. -/
def coreDecls (opts : LoadBalancedServiceOptions) : List Decl :=
  [Decl.hostedZoneRef (zoneNameOf opts),
   Decl.loadBalancerRef opts.loadBalancer.loadBalancerArn,
   Decl.listenerRef opts.loadBalancer.listenerArn,
   Decl.vpcRef opts.vpcId,
   Decl.clusterRef opts.vpcId opts.clusterName opts.containerSecurityGroupIds,
   Decl.targetGroup (tgIdOf opts),
   Decl.certificate opts.domainName (zoneNameOf opts),
   Decl.listenerRule opts.loadBalancer.listenerArn opts.loadBalancer.rulePriority
     [ListenerCondition.hostHeaders [opts.domainName]]
     (ListenerAction.forward [tgIdOf opts]),
   Decl.listenerCertificate opts.loadBalancer.listenerArn opts.domainName,
   Decl.aRecord opts.domainName (zoneNameOf opts) opts.loadBalancer.loadBalancerArn,
   Decl.service opts.clusterName (extrasOf opts) (svcIdOf opts),
   Decl.addTarget (tgIdOf opts) (svcIdOf opts)]

/-- Embedding of the `LoadBalancedService` constructor as the ordered list
of resource declarations it emits. -/
def LoadBalancedService.construct (opts : LoadBalancedServiceOptions) : List Decl :=
  sgRefDecls opts ++ coreDecls opts

/-- The resolved load-balancer sub-record of the attribute-bundle variant
(`EcsLoadBalancerContext` of `src/lib/index.ts`).  `securityGroupId` is the
value of `loadbalancer.SecurityGroups![0]`, which is `undefined` when the
described load balancer has no security groups. -/
structure EcsLoadBalancerContextAttrs where
  securityGroupId : Option String
  rulePriority : Nat
  loadBalancerArn : String
  loadBalancerDnsName : String
  loadBalancerCanonicalHostedZoneId : String
  loadBalancerListenerArn : String
deriving DecidableEq, Repr

/-- The read-only environment of the attribute-bundle resolver variant:
`describeListeners({ListenerArns: [arn]})` and
`describeLoadBalancers({LoadBalancerArns: [arn]})` (both responses have
their list fields asserted non-null by the code), plus the external
priority allocator. -/
structure AttrsResolverEnv where
  describeListeners : String → List Listener
  describeLoadBalancers : String → List LoadBalancerDesc
  findPriority : String → String → Except ResolutionError Nat

/-- Embedding of `getLoadBalancerContext(listenerArn, hostname)` of the
attribute-bundle variant (`src/lib/index.ts`): describe the listener by its
ARN and take the first entry, describe its `LoadBalancerArn` and take the
first entry, ask the allocator for a priority, and assemble the sub-record
from the fields of the two API responses. -/
def getLoadBalancerContextByListenerArn (env : AttrsResolverEnv)
    (listenerArn hostname : String) :
    Except ResolutionError EcsLoadBalancerContextAttrs :=
  match (env.describeListeners listenerArn).head? with
  | none => .error .listenerNotFound
  | some listener =>
    match (env.describeLoadBalancers listener.LoadBalancerArn).head? with
    | none => .error .loadBalancerNotFound
    | some lb =>
      match env.findPriority listenerArn hostname with
      | .error e => .error e
      | .ok p =>
        .ok { securityGroupId := lb.SecurityGroups.head?
              rulePriority := p
              loadBalancerArn := listener.LoadBalancerArn
              loadBalancerDnsName := lb.DNSName
              loadBalancerCanonicalHostedZoneId := lb.CanonicalHostedZoneId
              loadBalancerListenerArn := listener.ListenerArn }

/-- Modelled from the spec: the claimed fixed derivation rule
`strip the final slash-delimited segment of the listener ARN`, stated in
the spec as how the load-balancer ARN is obtained from a listener ARN.
This definition follows the spec's words and is compared against the
source-derived `getLoadBalancerContextByListenerArn`. -/
def stripLastSegmentSpec (s : String) : String :=
  String.intercalate "/" ((splitSlash s).dropLast)

/-- Target-group protocol values relevant to the defaults. -/
inductive TgProtocol where
  | HTTP
  | HTTPS
deriving DecidableEq, Repr

/-- The resolved target-group configuration values named by the spec. -/
structure TargetGroupProps where
  protocol : TgProtocol
  deregistrationDelaySeconds : Nat
  stickinessCookieDurationSeconds : Nat
deriving DecidableEq, Repr

/-- A caller-supplied partial override of the target-group defaults. -/
structure TargetGroupPropsOverride where
  protocol : Option TgProtocol
  deregistrationDelaySeconds : Option Nat
  stickinessCookieDurationSeconds : Option Nat
deriving DecidableEq, Repr

/-- Modelled from the spec: the default target-group configuration.  The
`targetGroupProps` configuration surface appears in the repository's README
but its implementation is not under `src/` (the `src/` variants only take a
caller-supplied `targetGroupFactory`); per the spec the defaults are
protocol HTTP, deregistration delay 15 seconds, stickiness cookie duration
1 day (86400 seconds). -/
def defaultTargetGroupProps : TargetGroupProps :=
  { protocol := TgProtocol.HTTP
    deregistrationDelaySeconds := 15
    stickinessCookieDurationSeconds := 86400 }

/-- Modelled from the spec: the caller-supplied `targetGroupProps` partial
override is merged over the stated defaults field by field; with no
override the defaults stand. -/
def resolveTargetGroupProps : Option TargetGroupPropsOverride → TargetGroupProps
  | none => defaultTargetGroupProps
  | some ov =>
    { protocol := ov.protocol.getD defaultTargetGroupProps.protocol
      deregistrationDelaySeconds :=
        ov.deregistrationDelaySeconds.getD defaultTargetGroupProps.deregistrationDelaySeconds
      stickinessCookieDurationSeconds :=
        ov.stickinessCookieDurationSeconds.getD defaultTargetGroupProps.stickinessCookieDurationSeconds }

/-- Modelled from the spec: the `createRoute53ARecord` option (default
true) of the configuration surface.  Its implementation is not under
`src/` (the `src/` variants declare the alias record unconditionally); per
the spec, when the option is false the alias-record declaration is skipped
and every other declaration is unchanged. -/
def constructWithRecordOption (createRoute53ARecord : Option Bool)
    (opts : LoadBalancedServiceOptions) : List Decl :=
  if createRoute53ARecord.getD true then LoadBalancedService.construct opts
  else (LoadBalancedService.construct opts).filter fun d =>
    match d with
    | Decl.aRecord _ _ _ => false
    | _ => true

/-- Recognizer for security-group reference declarations. -/
def Decl.isSecurityGroupRef : Decl → Bool
  | Decl.securityGroupRef _ _ => true
  | _ => false

/-- Recognizer for hosted-zone reference declarations. -/
def Decl.isHostedZoneRef : Decl → Bool
  | Decl.hostedZoneRef _ => true
  | _ => false

/-- Recognizer for VPC reference declarations. -/
def Decl.isVpcRef : Decl → Bool
  | Decl.vpcRef _ => true
  | _ => false

/-- Recognizer for cluster reference declarations. -/
def Decl.isClusterRef : Decl → Bool
  | Decl.clusterRef _ _ _ => true
  | _ => false

/-- Recognizer for target-group declarations. -/
def Decl.isTargetGroup : Decl → Bool
  | Decl.targetGroup _ => true
  | _ => false

/-- Recognizer for certificate declarations. -/
def Decl.isCertificate : Decl → Bool
  | Decl.certificate _ _ => true
  | _ => false

/-- Recognizer for listener-rule declarations. -/
def Decl.isListenerRule : Decl → Bool
  | Decl.listenerRule _ _ _ _ => true
  | _ => false

/-- Recognizer for certificate-listener binding declarations. -/
def Decl.isListenerCertificate : Decl → Bool
  | Decl.listenerCertificate _ _ => true
  | _ => false

/-- Recognizer for alias-record declarations. -/
def Decl.isARecord : Decl → Bool
  | Decl.aRecord _ _ _ => true
  | _ => false

/-- Recognizer for service declarations. -/
def Decl.isService : Decl → Bool
  | Decl.service _ _ _ => true
  | _ => false

/-- Recognizer for target registrations (`targetGroup.addTarget`). -/
def Decl.isAddTarget : Decl → Bool
  | Decl.addTarget _ _ => true
  | _ => false

/-- A predicate that is false on security-group references filters the
security-group block of the constructor trace to nothing. -/
theorem sgRefDecls_filter_nil (opts : LoadBalancedServiceOptions) (p : Decl → Bool)
    (h : ∀ i s, p (Decl.securityGroupRef i s) = false) :
    (sgRefDecls opts).filter p = [] := by
  rw [List.filter_eq_nil_iff]
  intro a ha
  simp only [sgRefDecls, List.mem_map] at ha
  obtain ⟨q, hq, rfl⟩ := ha
  simp [h]

/-- Filtering the constructor trace by a predicate that ignores
security-group references reduces to filtering the core declarations. -/
theorem construct_filter (opts : LoadBalancedServiceOptions) (p : Decl → Bool)
    (h : ∀ i s, p (Decl.securityGroupRef i s) = false) :
    (LoadBalancedService.construct opts).filter p = (coreDecls opts).filter p := by
  rw [LoadBalancedService.construct, List.filter_append, sgRefDecls_filter_nil opts p h,
    List.nil_append]

/-- Claim C4: the constructor declares exactly one host-header routing rule,
on the resolved listener, at the resolved `rulePriority`, whose sole
condition is an exact host-header match on `domainName` and whose sole
action forwards to the target group produced by the target-group factory. -/
theorem listener_rule_unique_and_shaped (opts : LoadBalancedServiceOptions) :
    (LoadBalancedService.construct opts).filter Decl.isListenerRule =
      [Decl.listenerRule opts.loadBalancer.listenerArn opts.loadBalancer.rulePriority
        [ListenerCondition.hostHeaders [opts.domainName]]
        (ListenerAction.forward [opts.targetGroupFactory opts.vpcId])] := by
  rw [construct_filter opts Decl.isListenerRule (fun i s => rfl)]
  simp [coreDecls, Decl.isListenerRule, List.filter, tgIdOf]

/-- Modelled from the spec's words, for comparison with the source's
zone-name computation: the last two labels of the domain name, joined by a
dot. -/
def lastTwoLabelsSpec (domainName : String) : String :=
  String.intercalate "." (((splitDot domainName).reverse.take 2).reverse)

/-- The source's `slice(-2)` equals the spec's `last two labels`. -/
theorem lastTwo_eq_reverse_take (l : List String) :
    lastTwo l = (l.reverse.take 2).reverse := by
  rw [List.take_reverse, List.reverse_reverse, lastTwo]

/-- Claim C6: with no explicit `route53ZoneName` and a domain name of at
least two dot-separated labels, the zone name used for the hosted-zone
lookup is the last two labels of `domainName` joined by a dot. -/
theorem default_zone_last_two_labels (opts : LoadBalancedServiceOptions)
    (hz : opts.route53ZoneName = none)
    (_hlab : 2 ≤ (splitDot opts.domainName).length) :
    (LoadBalancedService.construct opts).filter Decl.isHostedZoneRef =
      [Decl.hostedZoneRef (lastTwoLabelsSpec opts.domainName)] := by
  rw [construct_filter opts Decl.isHostedZoneRef (fun i s => rfl)]
  have hzone : zoneNameOf opts = lastTwoLabelsSpec opts.domainName := by
    rw [zoneNameOf, hz, Option.getD_none, lastTwoLabelsSpec, lastTwo_eq_reverse_take]
  simp [coreDecls, Decl.isHostedZoneRef, List.filter, hzone]

/-- Concrete options used to witness the zone-derivation claim. -/
def ex6Opts : LoadBalancedServiceOptions :=
  { domainName := "api.foo.example.com"
    vpcId := "vpc-1"
    clusterName := "cluster-1"
    containerSecurityGroupIds := ["sg-1"]
    route53ZoneName := none
    loadBalancer := { loadBalancerArn := "lb-arn", listenerArn := "listener-arn", rulePriority := 42 }
    targetGroupFactory := fun _ => 7
    serviceFactory := fun _ _ => 9 }

/-- Witness for the zone-derivation claim at
`domainName = "api.foo.example.com"`: the derived zone is `"example.com"`. -/
theorem default_zone_last_two_labels_witness :
    lastTwoLabelsSpec "api.foo.example.com" = "example.com" ∧
    (LoadBalancedService.construct ex6Opts).filter Decl.isHostedZoneRef =
      [Decl.hostedZoneRef (lastTwoLabelsSpec "api.foo.example.com")] :=
  ⟨by decide, default_zone_last_two_labels ex6Opts rfl (by decide)⟩

/-- Claim C9: for a Context whose security-group id collection is
non-empty, the cluster reference is declared with that same non-empty
collection and the `extras` passed to the service factory carry a
non-empty security-group collection as well. -/
theorem security_groups_nonempty_preserved (opts : LoadBalancedServiceOptions)
    (h : opts.containerSecurityGroupIds ≠ []) :
    ((LoadBalancedService.construct opts).filter Decl.isClusterRef =
        [Decl.clusterRef opts.vpcId opts.clusterName opts.containerSecurityGroupIds] ∧
      opts.containerSecurityGroupIds ≠ []) ∧
    ((LoadBalancedService.construct opts).filter Decl.isService =
        [Decl.service opts.clusterName (extrasOf opts) (svcIdOf opts)] ∧
      (extrasOf opts).securityGroups ≠ []) := by
  refine ⟨⟨?_, h⟩, ?_, ?_⟩
  · rw [construct_filter opts Decl.isClusterRef (fun i s => rfl)]
    simp [coreDecls, Decl.isClusterRef, List.filter]
  · rw [construct_filter opts Decl.isService (fun i s => rfl)]
    simp [coreDecls, Decl.isService, List.filter]
  · simpa [extrasOf] using h

/-- Witness for the security-group preservation claim at concrete options
with one security group. -/
theorem security_groups_nonempty_preserved_witness :
    ((LoadBalancedService.construct ex6Opts).filter Decl.isClusterRef =
        [Decl.clusterRef ex6Opts.vpcId ex6Opts.clusterName ex6Opts.containerSecurityGroupIds] ∧
      ex6Opts.containerSecurityGroupIds ≠ []) ∧
    ((LoadBalancedService.construct ex6Opts).filter Decl.isService =
        [Decl.service ex6Opts.clusterName (extrasOf ex6Opts) (svcIdOf ex6Opts)] ∧
      (extrasOf ex6Opts).securityGroups ≠ []) :=
  security_groups_nonempty_preserved ex6Opts (by decide)

/-- Claim C10: successful context resolution fills in only the
load-balancer sub-record; every other field of the returned Context is the
caller-supplied input value, unchanged, and the sub-record is exactly the
load-balancer resolver's output. -/
theorem context_resolution_frame (env : ResolverEnv) (req : ContextRequest)
    (ctx : LoadBalancedServiceContext)
    (h : getLoadBalancedServiceContext env req = Except.ok ctx) :
    ctx.domainName = req.domainName ∧
    ctx.vpcId = req.vpcId ∧
    ctx.clusterName = req.clusterName ∧
    ctx.containerSecurityGroupIds = req.containerSecurityGroupIds ∧
    ctx.route53ZoneName = req.route53ZoneName ∧
    getLoadBalancerContext env req.loadBalancerArn req.domainName = Except.ok ctx.loadBalancer := by
  unfold getLoadBalancedServiceContext at h
  cases heq : getLoadBalancerContext env req.loadBalancerArn req.domainName with
  | error e => rw [heq] at h; exact absurd h (by simp)
  | ok lb =>
    rw [heq] at h
    simp only [Except.ok.injEq] at h
    subst h
    exact ⟨rfl, rfl, rfl, rfl, rfl, rfl⟩

/-- Evaluation of the resolver once the described listener list and the
selected HTTPS listener are known: only the allocator call remains. -/
theorem getLoadBalancerContext_run (env : ResolverEnv) (arn host : String)
    (ls : List Listener) (l : Listener)
    (hd : env.describeListeners arn = some ls)
    (hf : ls.find? (fun x => x.Protocol == "HTTPS") = some l) :
    getLoadBalancerContext env arn host =
      match env.findPriority l.ListenerArn host with
      | Except.error e => Except.error e
      | Except.ok p =>
        Except.ok { loadBalancerArn := arn, listenerArn := l.ListenerArn, rulePriority := p } := by
  simp only [getLoadBalancerContext, hd, Option.bind, hf]

/-- Claim C2: resolution selects the first listener of the described list
whose protocol is exactly `"HTTPS"` (everything before the selected entry
is non-HTTPS), and when the list has no HTTPS listener it fails with
`noHttpsListener` and returns no Context. -/
theorem resolver_selects_first_https_listener (env : ResolverEnv) (arn host : String)
    (ls : List Listener) (hd : env.describeListeners arn = some ls) :
    (ls.find? (fun l => l.Protocol == "HTTPS") = none →
      getLoadBalancerContext env arn host =
        Except.error ResolutionError.noHttpsListener) ∧
    (∀ l, ls.find? (fun l => l.Protocol == "HTTPS") = some l →
      (l.Protocol = "HTTPS" ∧
        ∃ pre post, ls = pre ++ l :: post ∧ ∀ x ∈ pre, x.Protocol ≠ "HTTPS") ∧
      ∀ ctx, getLoadBalancerContext env arn host = Except.ok ctx →
        ctx.listenerArn = l.ListenerArn ∧ ctx.loadBalancerArn = arn) := by
  constructor
  · intro hn
    unfold getLoadBalancerContext
    rw [hd]
    simp [Option.bind, hn]
  · intro l hf
    refine ⟨⟨?_, ?_⟩, ?_⟩
    · have hp := List.find?_some hf
      simpa using hp
    · obtain ⟨hp, pre, post, hls, hall⟩ := List.find?_eq_some.mp hf
      refine ⟨pre, post, hls, fun x hx => ?_⟩
      have := hall x hx
      simpa using this
    · intro ctx hok
      rw [getLoadBalancerContext_run env arn host ls l hd hf] at hok
      cases hpr : env.findPriority l.ListenerArn host with
      | error e => rw [hpr] at hok; exact absurd hok (by simp)
      | ok p =>
        rw [hpr] at hok
        simp only [Except.ok.injEq] at hok
        subst hok
        exact ⟨rfl, rfl⟩

/-- A described listener list with one HTTP entry followed by two HTTPS
entries, used to witness the selection claims. -/
def exListeners : List Listener :=
  [{ ListenerArn := "arn-http", LoadBalancerArn := "lb-arn", Protocol := "HTTP" },
   { ListenerArn := "arn-https-1", LoadBalancerArn := "lb-arn", Protocol := "HTTPS" },
   { ListenerArn := "arn-https-2", LoadBalancerArn := "lb-arn", Protocol := "HTTPS" }]

/-- A resolver environment that describes `exListeners` and always finds
priority 7. -/
def ex2Env : ResolverEnv :=
  { describeListeners := fun _ => some exListeners
    findPriority := fun _ _ => Except.ok 7 }

/-- A resolver environment whose load balancer has only an HTTP listener. -/
def exNoHttpsEnv : ResolverEnv :=
  { describeListeners := fun _ =>
      some [{ ListenerArn := "arn-http", LoadBalancerArn := "lb-arn", Protocol := "HTTP" }]
    findPriority := fun _ _ => Except.ok 7 }

/-- Witness for the listener-selection claim: with `exListeners` the
resolver returns the first HTTPS listener `arn-https-1`, and with only an
HTTP listener it fails with `noHttpsListener`. -/
theorem resolver_selects_first_https_listener_witness :
    ({ loadBalancerArn := "lb-arn", listenerArn := "arn-https-1", rulePriority := 7 :
        EcsLoadBalancerContext }.listenerArn = "arn-https-1" ∧
      { loadBalancerArn := "lb-arn", listenerArn := "arn-https-1", rulePriority := 7 :
        EcsLoadBalancerContext }.loadBalancerArn = "lb-arn") ∧
    getLoadBalancerContext exNoHttpsEnv "lb-arn" "svc.example.com" =
      Except.error ResolutionError.noHttpsListener :=
  ⟨((resolver_selects_first_https_listener ex2Env "lb-arn" "svc.example.com" exListeners
      rfl).2
      { ListenerArn := "arn-https-1", LoadBalancerArn := "lb-arn", Protocol := "HTTPS" }
      (by decide)).2
      { loadBalancerArn := "lb-arn", listenerArn := "arn-https-1", rulePriority := 7 }
      rfl,
   (resolver_selects_first_https_listener exNoHttpsEnv "lb-arn" "svc.example.com"
      [{ ListenerArn := "arn-http", LoadBalancerArn := "lb-arn", Protocol := "HTTP" }]
      rfl).1 (by decide)⟩

/-- Claim C3: when the external priority allocator reports that no free
priority exists on the selected listener, resolution fails with
`noAvailablePriority` and no Context value is returned. -/
theorem resolver_priority_exhaustion_fails (env : ResolverEnv) (arn host : String)
    (ls : List Listener) (l : Listener)
    (hd : env.describeListeners arn = some ls)
    (hf : ls.find? (fun x => x.Protocol == "HTTPS") = some l)
    (hpr : env.findPriority l.ListenerArn host =
      Except.error ResolutionError.noAvailablePriority) :
    getLoadBalancerContext env arn host =
      Except.error ResolutionError.noAvailablePriority ∧
    ∀ ctx, getLoadBalancerContext env arn host ≠ Except.ok ctx := by
  have hrun : getLoadBalancerContext env arn host =
      Except.error ResolutionError.noAvailablePriority := by
    rw [getLoadBalancerContext_run env arn host ls l hd hf, hpr]
  exact ⟨hrun, fun ctx hc => by rw [hrun] at hc; exact absurd hc (by simp)⟩

/-- A resolver environment whose priority allocator is exhausted. -/
def ex3Env : ResolverEnv :=
  { describeListeners := fun _ => some exListeners
    findPriority := fun _ _ => Except.error ResolutionError.noAvailablePriority }

/-- Witness for the priority-exhaustion claim at a concrete environment. -/
theorem resolver_priority_exhaustion_fails_witness :
    getLoadBalancerContext ex3Env "lb-arn" "svc.example.com" =
      Except.error ResolutionError.noAvailablePriority :=
  (resolver_priority_exhaustion_fails ex3Env "lb-arn" "svc.example.com" exListeners
    { ListenerArn := "arn-https-1", LoadBalancerArn := "lb-arn", Protocol := "HTTPS" }
    rfl (by decide) rfl).1

/-- The concrete request used to witness the frame claim. -/
def ex10Req : ContextRequest :=
  { domainName := "svc.example.com"
    vpcId := "vpc-1"
    clusterName := "cluster-1"
    containerSecurityGroupIds := ["sg-1"]
    route53ZoneName := none
    loadBalancerArn := "lb-arn" }

/-- The Context produced from `ex10Req` in environment `ex2Env`. -/
def ex10Ctx : LoadBalancedServiceContext :=
  { domainName := "svc.example.com"
    vpcId := "vpc-1"
    clusterName := "cluster-1"
    containerSecurityGroupIds := ["sg-1"]
    route53ZoneName := none
    loadBalancer := { loadBalancerArn := "lb-arn", listenerArn := "arn-https-1", rulePriority := 7 } }

/-- Witness for the frame claim: at `ex10Req` the resolved Context keeps
every caller-supplied field unchanged. -/
theorem context_resolution_frame_witness :
    ex10Ctx.domainName = ex10Req.domainName ∧
    ex10Ctx.vpcId = ex10Req.vpcId ∧
    ex10Ctx.clusterName = ex10Req.clusterName ∧
    ex10Ctx.containerSecurityGroupIds = ex10Req.containerSecurityGroupIds ∧
    ex10Ctx.route53ZoneName = ex10Req.route53ZoneName ∧
    getLoadBalancerContext ex2Env ex10Req.loadBalancerArn ex10Req.domainName =
      Except.ok ex10Ctx.loadBalancer :=
  context_resolution_frame ex2Env ex10Req ex10Ctx rfl

/-- Claim C1 (amended): the constructor declares, in order, the
security-group references, then the DNS zone, load-balancer reference,
listener reference, VPC, cluster, target group, certificate for
`domainName`, listener rule at the resolved priority with a host-header
condition on `domainName`, certificate-listener binding, alias record
named `domainName`, service, and finally registers the service factory's
output as the sole target of the target group; each of the single
resources is declared exactly once. -/
theorem orchestrator_declarations (opts : LoadBalancedServiceOptions) :
    (sgRefDecls opts).all Decl.isSecurityGroupRef = true ∧
    (LoadBalancedService.construct opts).take opts.containerSecurityGroupIds.length =
      sgRefDecls opts ∧
    (LoadBalancedService.construct opts).drop opts.containerSecurityGroupIds.length =
      [Decl.hostedZoneRef (zoneNameOf opts),
       Decl.loadBalancerRef opts.loadBalancer.loadBalancerArn,
       Decl.listenerRef opts.loadBalancer.listenerArn,
       Decl.vpcRef opts.vpcId,
       Decl.clusterRef opts.vpcId opts.clusterName opts.containerSecurityGroupIds,
       Decl.targetGroup (tgIdOf opts),
       Decl.certificate opts.domainName (zoneNameOf opts),
       Decl.listenerRule opts.loadBalancer.listenerArn opts.loadBalancer.rulePriority
         [ListenerCondition.hostHeaders [opts.domainName]]
         (ListenerAction.forward [tgIdOf opts]),
       Decl.listenerCertificate opts.loadBalancer.listenerArn opts.domainName,
       Decl.aRecord opts.domainName (zoneNameOf opts) opts.loadBalancer.loadBalancerArn,
       Decl.service opts.clusterName (extrasOf opts) (svcIdOf opts),
       Decl.addTarget (tgIdOf opts) (svcIdOf opts)] ∧
    (LoadBalancedService.construct opts).filter Decl.isTargetGroup =
      [Decl.targetGroup (tgIdOf opts)] ∧
    (LoadBalancedService.construct opts).filter Decl.isCertificate =
      [Decl.certificate opts.domainName (zoneNameOf opts)] ∧
    (LoadBalancedService.construct opts).filter Decl.isListenerCertificate =
      [Decl.listenerCertificate opts.loadBalancer.listenerArn opts.domainName] ∧
    (LoadBalancedService.construct opts).filter Decl.isARecord =
      [Decl.aRecord opts.domainName (zoneNameOf opts) opts.loadBalancer.loadBalancerArn] ∧
    (LoadBalancedService.construct opts).filter Decl.isAddTarget =
      [Decl.addTarget (tgIdOf opts) (svcIdOf opts)] ∧
    svcIdOf opts = opts.serviceFactory opts.clusterName (extrasOf opts) := by
  have hlen : (sgRefDecls opts).length = opts.containerSecurityGroupIds.length := by
    simp [sgRefDecls]
  refine ⟨?_, ?_, ?_, ?_, ?_, ?_, ?_, ?_, rfl⟩
  · rw [List.all_eq_true]
    intro a ha
    simp only [sgRefDecls, List.mem_map] at ha
    obtain ⟨q, hq, rfl⟩ := ha
    rfl
  · rw [LoadBalancedService.construct, List.take_left' hlen]
  · rw [LoadBalancedService.construct, List.drop_left' hlen]
    rfl
  · rw [construct_filter opts Decl.isTargetGroup (fun i s => rfl)]
    simp [coreDecls, Decl.isTargetGroup, List.filter]
  · rw [construct_filter opts Decl.isCertificate (fun i s => rfl)]
    simp [coreDecls, Decl.isCertificate, List.filter]
  · rw [construct_filter opts Decl.isListenerCertificate (fun i s => rfl)]
    simp [coreDecls, Decl.isListenerCertificate, List.filter]
  · rw [construct_filter opts Decl.isARecord (fun i s => rfl)]
    simp [coreDecls, Decl.isARecord, List.filter]
  · rw [construct_filter opts Decl.isAddTarget (fun i s => rfl)]
    simp [coreDecls, Decl.isAddTarget, List.filter]

/-- Claim C1 counterexample: at concrete options the VPC reference is the
fifth declaration (index 4), after the security-group reference (index 0)
and the hosted-zone reference (index 1), so the claimed dependency order
(VPC first, then security groups, then the DNS zone) does not hold. -/
theorem orchestrator_vpc_not_first :
    (LoadBalancedService.construct ex6Opts).indexOf (Decl.vpcRef "vpc-1") = 4 ∧
    (LoadBalancedService.construct ex6Opts).indexOf (Decl.securityGroupRef 0 "sg-1") = 0 ∧
    (LoadBalancedService.construct ex6Opts).indexOf (Decl.hostedZoneRef "example.com") = 1 ∧
    ¬ (LoadBalancedService.construct ex6Opts).indexOf (Decl.vpcRef "vpc-1") <
        (LoadBalancedService.construct ex6Opts).indexOf (Decl.securityGroupRef 0 "sg-1") := by
  decide

/-- An attribute-bundle resolver environment whose API reports, for the
described listener, an owning load-balancer ARN unrelated to the listener
ARN string. -/
def ex5Env : AttrsResolverEnv :=
  { describeListeners := fun _ =>
      [{ ListenerArn := "arn:aws:elb:loadbalancer/app/my-lb/abc/listener/xyz"
         LoadBalancerArn := "arn:aws:elb:loadbalancer/net/other-lb/def"
         Protocol := "HTTPS" }]
    describeLoadBalancers := fun _ =>
      [{ LoadBalancerArn := "arn:aws:elb:loadbalancer/net/other-lb/def"
         DNSName := "lb.dns.example"
         CanonicalHostedZoneId := "Z1"
         SecurityGroups := ["sg-lb"] }]
    findPriority := fun _ _ => Except.ok 5 }

/-- Claim C5 counterexample: the load-balancer ARN recorded in the
resolved Context is the `LoadBalancerArn` reported by the describe API for
the listener, which at this input differs from the listener ARN with its
final slash-delimited segment stripped; moreover stripping one segment of
the spec's own example input does not even produce the spec's example
output. -/
theorem lb_arn_not_stripped :
    getLoadBalancerContextByListenerArn ex5Env
        "arn:aws:elb:loadbalancer/app/my-lb/abc/listener/xyz" "svc.example.com" =
      Except.ok { securityGroupId := some "sg-lb"
                  rulePriority := 5
                  loadBalancerArn := "arn:aws:elb:loadbalancer/net/other-lb/def"
                  loadBalancerDnsName := "lb.dns.example"
                  loadBalancerCanonicalHostedZoneId := "Z1"
                  loadBalancerListenerArn := "arn:aws:elb:loadbalancer/app/my-lb/abc/listener/xyz" } ∧
    stripLastSegmentSpec "arn:aws:elb:loadbalancer/app/my-lb/abc/listener/xyz" =
      "arn:aws:elb:loadbalancer/app/my-lb/abc/listener" ∧
    "arn:aws:elb:loadbalancer/net/other-lb/def" ≠
      "arn:aws:elb:loadbalancer/app/my-lb/abc/listener" ∧
    "arn:aws:elb:loadbalancer/app/my-lb/abc/listener" ≠
      "arn:aws:elb:loadbalancer/app/my-lb/abc" := by
  refine ⟨rfl, by decide, by decide, by decide⟩

/-- Claim C5 (amended): the load-balancer ARN recorded in the resolved
Context is the `LoadBalancerArn` field reported by the describe-listeners
API for the supplied listener ARN (first entry of the response), not a
string derived from the listener ARN. -/
theorem lb_arn_from_api (env : AttrsResolverEnv) (la host : String)
    (ctx : EcsLoadBalancerContextAttrs)
    (h : getLoadBalancerContextByListenerArn env la host = Except.ok ctx) :
    ∃ l, (env.describeListeners la).head? = some l ∧
      ctx.loadBalancerArn = l.LoadBalancerArn ∧
      ctx.loadBalancerListenerArn = l.ListenerArn := by
  unfold getLoadBalancerContextByListenerArn at h
  split at h
  · exact absurd h (by simp)
  · rename_i l hh
    split at h
    · exact absurd h (by simp)
    · rename_i lb hlb
      split at h
      · exact absurd h (by simp)
      · rename_i p hpr
        simp only [Except.ok.injEq] at h
        subst h
        exact ⟨l, hh, rfl, rfl⟩

/-- Witness for the amended load-balancer-ARN claim at the concrete
environment `ex5Env`. -/
theorem lb_arn_from_api_witness :
    ∃ l, (ex5Env.describeListeners
        "arn:aws:elb:loadbalancer/app/my-lb/abc/listener/xyz").head? = some l ∧
      ({ securityGroupId := some "sg-lb"
         rulePriority := 5
         loadBalancerArn := "arn:aws:elb:loadbalancer/net/other-lb/def"
         loadBalancerDnsName := "lb.dns.example"
         loadBalancerCanonicalHostedZoneId := "Z1"
         loadBalancerListenerArn := "arn:aws:elb:loadbalancer/app/my-lb/abc/listener/xyz" :
         EcsLoadBalancerContextAttrs }).loadBalancerArn = l.LoadBalancerArn ∧
      ({ securityGroupId := some "sg-lb"
         rulePriority := 5
         loadBalancerArn := "arn:aws:elb:loadbalancer/net/other-lb/def"
         loadBalancerDnsName := "lb.dns.example"
         loadBalancerCanonicalHostedZoneId := "Z1"
         loadBalancerListenerArn := "arn:aws:elb:loadbalancer/app/my-lb/abc/listener/xyz" :
         EcsLoadBalancerContextAttrs }).loadBalancerListenerArn = l.ListenerArn :=
  lb_arn_from_api ex5Env "arn:aws:elb:loadbalancer/app/my-lb/abc/listener/xyz"
    "svc.example.com" _ rfl

/-- Claim C7: with no `targetGroupProps` override the target group uses
protocol HTTP, a 15-second deregistration delay and a 24-hour (86400 s)
stickiness cookie duration, and a caller override replaces exactly the
fields it supplies. -/
theorem target_group_defaults_and_override :
    resolveTargetGroupProps none =
      { protocol := TgProtocol.HTTP
        deregistrationDelaySeconds := 15
        stickinessCookieDurationSeconds := 86400 } ∧
    ∀ ov : TargetGroupPropsOverride,
      (resolveTargetGroupProps (some ov)).protocol = ov.protocol.getD TgProtocol.HTTP ∧
      (resolveTargetGroupProps (some ov)).deregistrationDelaySeconds =
        ov.deregistrationDelaySeconds.getD 15 ∧
      (resolveTargetGroupProps (some ov)).stickinessCookieDurationSeconds =
        ov.stickinessCookieDurationSeconds.getD 86400 :=
  ⟨rfl, fun _ => ⟨rfl, rfl, rfl⟩⟩

/-- Claim C8: with `createRoute53ARecord` absent or true the orchestrator
declares exactly one alias record named `domainName` in the resolved zone
pointing at the load balancer (and the trace is the unmodified constructor
trace); with the option false it declares no alias record. -/
theorem route53_record_toggle (opts : LoadBalancedServiceOptions) :
    constructWithRecordOption none opts = LoadBalancedService.construct opts ∧
    constructWithRecordOption (some true) opts = LoadBalancedService.construct opts ∧
    (constructWithRecordOption (some true) opts).filter Decl.isARecord =
      [Decl.aRecord opts.domainName (zoneNameOf opts) opts.loadBalancer.loadBalancerArn] ∧
    (constructWithRecordOption (some false) opts).filter Decl.isARecord = [] := by
  refine ⟨rfl, rfl, ?_, ?_⟩
  · show (LoadBalancedService.construct opts).filter Decl.isARecord = _
    rw [construct_filter opts Decl.isARecord (fun i s => rfl)]
    simp [coreDecls, Decl.isARecord, List.filter]
  · rw [List.filter_eq_nil_iff]
    intro a ha
    rw [constructWithRecordOption] at ha
    simp only [Option.getD, Bool.false_eq_true, if_false, List.mem_filter] at ha
    obtain ⟨hmem, hpa⟩ := ha
    cases a <;> simp_all [Decl.isARecord]
